import Mathlib

/-!
# Verification of the AI receptionist voice relay (`main.py`)

Shallow embedding of the relay server in `src/main.py`:

* pure string/byte manipulations (base64 encoding, `str.replace`) are
  translated into executable Lean functions;
* the two network collaborators (the OpenAI chat-completion call made by
  `check_for_booking` / `process_user_message`, and the `requests.post` to the
  make.com webhook made by `send_to_make`) are modelled by *oracle* values
  carrying the outcome that the call would observe (`Except Unit _`, where
  `.error` stands for a raised exception);
* the stateful websocket handlers (`receive_from_client`,
  `receive_from_openai`, `ws_voice`) are modelled as functions from the
  sequence of inbound frames/events to the session state and an ordered
  trace of side effects (`Effect`).  The trace order is the order in which
  the Python code performs the effects; in particular a synchronous call
  such as `check_for_booking(...)` contributes its effects *inline*, before
  any statement that textually follows it.
-/

deriving instance DecidableEq for Except

namespace AIReceptionist

/-- A role attached to one logged conversation turn
(the `"role"` field of the Python history dicts). -/
inductive Role where
  | system
  | user
  | assistant
deriving DecidableEq, Repr

/-- One entry of a chat history list: a Python dict
`{"role": ..., "content": ...}`.  `content` is `Option String` because
`process_user_message` may store `response_message.content`, which is
`None` when the model answered with a tool call only. -/
structure Turn where
  role : Role
  content : Option String
deriving DecidableEq, Repr

/-- Process configuration read from the environment:
whether `MAKE_WEBHOOK_URL` is set (non-empty). -/
structure Env where
  makeWebhookUrlSet : Bool
deriving DecidableEq, Repr

/-- One tool call of a chat-completion response.  The Python code reads
`tool_calls[0].function.arguments` (a raw JSON string) and parses it with
`json.loads`; we model the parse *result*: `.ok args` is the decoded JSON
object as an association list of string fields, `.error ()` means
`json.loads` raised (malformed arguments). -/
structure ToolCall where
  argumentsParsed : Except Unit (List (String × String))
deriving DecidableEq, Repr

/-- The message of `response.choices[0].message`.  Python's `tool_calls` is
`None` or a list, and the code tests it for truthiness (`if tool_calls:`),
under which `None` and `[]` behave identically; both are modelled as `[]`. -/
structure ChatCompletionMessage where
  tool_calls : List ToolCall
  content : Option String
deriving DecidableEq, Repr

/-- Outcomes of the external calls observed while handling one event:
`llm` is the result of `client.chat.completions.create` (`.error ()` =
the call raised), `post` the result of `requests.post` to the webhook
(`.ok status` = HTTP response with that status code, `.error ()` = the
request raised). -/
structure Oracles where
  llm : Except Unit ChatCompletionMessage
  post : Except Unit Nat
deriving DecidableEq, Repr

/-- A structured JSON message sent to the browser with
`websocket.send_json` (discriminated by its `"type"` field). -/
inductive ClientMsg where
  | transcript (text : String)
  | userTranscript (text : String)
  | responseEnd
  | errorMsg (message : String)
deriving DecidableEq, Repr

/-- A message sent to the upstream realtime socket with `openai_ws.send`. -/
inductive UpstreamOut where
  | sessionUpdate
  | inputAudioBufferAppend (audio : String)
deriving DecidableEq, Repr

/-- One observable side effect, in program order.  `llmCall` is the
blocking `client.chat.completions.create(messages=...)` collaborator
call and records the history it was invoked on; an effect that follows
it in a trace is only performed after the call has returned. -/
inductive Effect where
  | acceptClient
  | sendToClientBytes (data : List Nat)
  | sendToClientJson (m : ClientMsg)
  | sendToUpstream (e : UpstreamOut)
  | llmCall (messages : List Turn)
  | httpPost (payload : List (String × String))
  | log (s : String)
  | closeClient
deriving DecidableEq, Repr

/-- The effect is the blocking chat-completion collaborator call. -/
def Effect.isLlmCall : Effect → Bool
  | .llmCall _ => true
  | _ => false

/-- The effect is an outbound webhook POST attempt. -/
def Effect.isHttpPost : Effect → Bool
  | .httpPost _ => true
  | _ => false

/-- The effect is a structured JSON message to the client. -/
def Effect.isClientJson : Effect → Bool
  | .sendToClientJson _ => true
  | _ => false

/-- The effect is a client-visible `error` message. -/
def Effect.isClientError : Effect → Bool
  | .sendToClientJson (.errorMsg _) => true
  | _ => false

/-- The effect closes the client socket. -/
def Effect.isCloseClient : Effect → Bool
  | .closeClient => true
  | _ => false

/-- The effect is a send on the upstream socket. -/
def Effect.isUpstreamSend : Effect → Bool
  | .sendToUpstream _ => true
  | _ => false

/-- The effect is a binary (audio) frame to the client. -/
def Effect.isClientBytes : Effect → Bool
  | .sendToClientBytes _ => true
  | _ => false

/-! ## Base64 (Python `base64.b64encode` / `b64decode`)

Bytes are `Nat`s below 256.  `b64encode` follows RFC 4648 with `=`
padding, exactly as Python's `base64.b64encode`. -/

/-- The base64 alphabet. -/
def base64Alphabet : List Char :=
  "ABCDEFGHIJKLMNOPQRSTUVWXYZabcdefghijklmnopqrstuvwxyz0123456789+/".data

/-- Character for a 6-bit group. -/
def sextetChar (n : Nat) : Char := base64Alphabet.getD n 'A'

/-- `base64.b64encode` on a byte sequence, as a character list. -/
def b64encodeL : List Nat → List Char
  | [] => []
  | [b0] =>
      [sextetChar (b0 / 4), sextetChar (b0 % 4 * 16), '=', '=']
  | [b0, b1] =>
      [sextetChar (b0 / 4), sextetChar (b0 % 4 * 16 + b1 / 16),
       sextetChar (b1 % 16 * 4), '=']
  | b0 :: b1 :: b2 :: rest =>
      sextetChar (b0 / 4) :: sextetChar (b0 % 4 * 16 + b1 / 16) ::
      sextetChar (b1 % 16 * 4 + b2 / 64) :: sextetChar (b2 % 64) ::
      b64encodeL rest

/-- `base64.b64encode(data).decode("utf-8")`. -/
def b64encode (data : List Nat) : String := String.mk (b64encodeL data)

/-- Index of a character in the base64 alphabet (`0` for padding or
foreign characters; only valid encodings occur in the claims). -/
def sextetVal (c : Char) : Nat :=
  (base64Alphabet.indexOf c) % 64

/-- `base64.b64decode` on a character list (total model: a best-effort
decode; no verified claim depends on its behaviour off valid inputs). -/
def b64decodeL : List Char → List Nat
  | c0 :: c1 :: '=' :: '=' :: [] =>
      [sextetVal c0 * 4 + sextetVal c1 / 16]
  | c0 :: c1 :: c2 :: '=' :: [] =>
      [sextetVal c0 * 4 + sextetVal c1 / 16,
       sextetVal c1 % 16 * 16 + sextetVal c2 / 4]
  | c0 :: c1 :: c2 :: c3 :: rest =>
      (sextetVal c0 * 4 + sextetVal c1 / 16) ::
      (sextetVal c1 % 16 * 16 + sextetVal c2 / 4) ::
      (sextetVal c2 % 4 * 64 + sextetVal c3) ::
      b64decodeL rest
  | _ => []

/-- `base64.b64decode(event.get("delta", ""))`. -/
def b64decode (s : String) : List Nat := b64decodeL s.data

/-! ## `SYSTEM_INSTRUCTIONS` and Python `str.replace` -/

/-- The constant `SYSTEM_INSTRUCTIONS` of `main.py` (lines 32–38). -/
def SYSTEM_INSTRUCTIONS : String :=
  "You are a friendly AI receptionist. " ++
  "Greet the user first and ask politely how you can help. " ++
  "Help users book appointments. " ++
  "Ask politely for any missing details (name, email, phone, service, date, time). " ++
  "Once all details are collected, use the book_appointment tool to finalize the booking."

/-- Python `str.replace` on character lists, with fuel.  Each step either
emits one character or consumes at least one character of a non-empty
match, so `fuel = s.length` always suffices; the fuel only serves to make
the recursion structural (and hence kernel-reducible). -/
def pyReplaceFuel (pat repl : List Char) : Nat → List Char → List Char
  | _, [] => []
  | 0, s => s
  | fuel + 1, c :: rest =>
      if pat ≠ [] ∧ pat.isPrefixOf (c :: rest) then
        repl ++ pyReplaceFuel pat repl fuel ((c :: rest).drop pat.length)
      else
        c :: pyReplaceFuel pat repl fuel rest

/-- Python `s.replace(pat, repl)` (all occurrences, left to right;
the empty pattern never occurs in this development). -/
def pyReplace (s pat repl : String) : String :=
  String.mk (pyReplaceFuel pat.data repl.data s.data.length s.data)

/-- `pat` occurs as a contiguous substring of `s`. -/
def occursIn (pat s : String) : Bool :=
  (s.data.tails).any (fun t => pat.data.isPrefixOf t)

/-- The per-session chat history created at the top of `ws_voice`
(lines 155–159): a single system turn whose content is
`SYSTEM_INSTRUCTIONS.replace("Wrap it in triple backticks with json.", "")`. -/
def initialSessionHistory : List Turn :=
  [⟨.system, some (pyReplace SYSTEM_INSTRUCTIONS
      "Wrap it in triple backticks with json." "")⟩]

/-! ## `send_to_make` (lines 67–76)

```python
def send_to_make(data):
    if not MAKE_WEBHOOK_URL:
        print("[WARN] MAKE_WEBHOOK_URL not set. Skipping webhook.")
        return False
    try:
        r = requests.post(MAKE_WEBHOOK_URL, json=data)
        return r.status_code == 200
    except Exception as e:
        print(f"[ERROR] Failed to send to make.com: {e}")
        return False
```
-/

/-- `send_to_make`: returns the Python return value together with the
trace of effects.  `post` is the outcome of the single `requests.post`
(the `.httpPost` effect records the attempt, made also when the request
then raises). -/
def send_to_make (env : Env) (post : Except Unit Nat)
    (data : List (String × String)) : Bool × List Effect :=
  if !env.makeWebhookUrlSet then
    (false, [.log "[WARN] MAKE_WEBHOOK_URL not set. Skipping webhook."])
  else
    match post with
    | .ok status => (status == 200, [.httpPost data])
    | .error _ => (false, [.httpPost data, .log "[ERROR] Failed to send to make.com"])

/-! ## `check_for_booking` (lines 115–134)

```python
def check_for_booking(history):
    try:
        response = client.chat.completions.create(model=..., messages=history,
                                                  tools=tools, tool_choice="auto")
        response_message = response.choices[0].message
        tool_calls = response_message.tool_calls
        if tool_calls:
            function_args = json.loads(tool_calls[0].function.arguments)
            function_args["action"] = "book"
            print("[INFO] Booking tool called in voice conversation, sending to make.com")
            send_to_make(function_args)
    except Exception as e:
        print(f"[ERROR] Failed to check for booking in voice: {e}")
```
-/

/-- `check_for_booking`: every path starts with the blocking
`.llmCall`; all exceptions (the completion call or `json.loads`) are
caught and turn into a log line; the return value of `send_to_make` is
discarded.  Returns the effect trace. -/
def check_for_booking (env : Env) (o : Oracles) (history : List Turn) :
    List Effect :=
  match o.llm with
  | .error _ =>
      [.llmCall history, .log "[ERROR] Failed to check for booking in voice"]
  | .ok msg =>
      match msg.tool_calls with
      | [] => [.llmCall history]
      | tc :: _ =>
          match tc.argumentsParsed with
          | .error _ =>
              [.llmCall history, .log "[ERROR] Failed to check for booking in voice"]
          | .ok args =>
              let function_args := args ++ [("action", "book")]
              .llmCall history ::
              .log "[INFO] Booking tool called in voice conversation, sending to make.com" ::
              (send_to_make env o.post function_args).2

/-! ## `process_user_message` (lines 78–113) -/

/-- First value of an association list under a key, with a default
(Python `dict.get(key, default)`). -/
def lookupD (l : List (String × String)) (key dflt : String) : String :=
  match l.find? (fun p => p.1 == key) with
  | some p => p.2
  | none => dflt

/-- The fallback reply used when the chat-completion call raises. -/
def fallbackReply : String :=
  "Sorry, I\x27m having trouble connecting to my brain right now. Please try again later."

/-- `process_user_message`: appends a user turn when `user_message` is
truthy (non-empty), performs the blocking completion call, on a tool call
dispatches the webhook and builds a confirmation/failure reply, on any
exception falls back to `fallbackReply`, and always appends one assistant
turn carrying the reply.  Returns
`(reply, updated chat_history, effect trace)`. -/
def process_user_message (env : Env) (o : Oracles) (chat_history : List Turn)
    (user_message : String) : Option String × List Turn × List Effect :=
  let h1 := if user_message ≠ "" then
              chat_history ++ [⟨.user, some user_message⟩]
            else chat_history
  match o.llm with
  | .error _ =>
      (some fallbackReply, h1 ++ [⟨.assistant, some fallbackReply⟩], [.llmCall h1])
  | .ok msg =>
      match msg.tool_calls with
      | [] =>
          (msg.content, h1 ++ [⟨.assistant, msg.content⟩], [.llmCall h1])
      | tc :: _ =>
          match tc.argumentsParsed with
          | .error _ =>
              (some fallbackReply, h1 ++ [⟨.assistant, some fallbackReply⟩],
               [.llmCall h1])
          | .ok args =>
              let function_args := args ++ [("action", "book")]
              let sm := send_to_make env o.post function_args
              let reply :=
                if sm.1 then
                  "✅ Your appointment for " ++
                  lookupD function_args "service" "your service" ++ " on " ++
                  lookupD function_args "date" "the selected date" ++ " at " ++
                  lookupD function_args "time" "the selected time" ++ " is booked."
                else "❌ Booking failed. Please try again."
              (some reply, h1 ++ [⟨.assistant, some reply⟩],
               .llmCall h1 :: .log "[INFO] Booking tool called" :: sm.2)

/-! ## `receive_from_client` (lines 199–219)

```python
while True:
    msg = await websocket.receive()
    if msg.get("bytes"):
        data = msg["bytes"]
        audio_b64 = base64.b64encode(data).decode("utf-8")
        await openai_ws.send(json.dumps({"type": "input_audio_buffer.append",
                                         "audio": audio_b64}))
```
-/

/-- One inbound websocket frame from the browser: either a binary frame
carrying raw PCM16 bytes or a text frame. -/
inductive ClientFrame where
  | binary (data : List Nat)
  | text (s : String)
deriving DecidableEq, Repr

/-- `msg.get("bytes")`: present exactly for binary frames. -/
def frameBytes : ClientFrame → Option (List Nat)
  | .binary d => some d
  | .text _ => none

/-- `receive_from_client`, as the list of upstream messages produced for a
given arrival sequence of frames.  `if msg.get("bytes"):` is a Python
truthiness test: it is false both for a text frame (`None`) and for an
*empty* binary frame (`b""`), so both are skipped. -/
def receive_from_client : List ClientFrame → List UpstreamOut
  | [] => []
  | f :: rest =>
      match frameBytes f with
      | some (b :: bs) =>
          .inputAudioBufferAppend (b64encode (b :: bs)) ::
          receive_from_client rest
      | _ => receive_from_client rest

/-! ## `receive_from_openai` (lines 221–275) -/

/-- One upstream realtime event, keyed by `event.get("type")`; the payload
fields are the ones the handler reads (with their `.get(..., "")`
defaults already applied). -/
inductive UpstreamEvent where
  | audioDelta (delta : String)
  | transcriptDelta (delta : String)
  | inputTranscriptionCompleted (transcript : String)
  | responseDone
  | errorEvent (message : String)
  | other (tag : String)
deriving DecidableEq, Repr

/-- The mutable session state of one `ws_voice` connection:
`session_chat_history` and the accumulator `current_ai_response`. -/
structure SessionState where
  session_chat_history : List Turn
  current_ai_response : String
deriving DecidableEq, Repr

/-- The body of the `async for` loop of `receive_from_openai` for one
event: new state and effect trace, in program order.  Note that on a
completed user transcription the call `check_for_booking(...)` is a plain
synchronous call, so its whole effect trace precedes the
`websocket.send_json({"type": "user_transcript", ...})` that follows it. -/
def handleEvent (env : Env) (o : Oracles) (st : SessionState) :
    UpstreamEvent → SessionState × List Effect
  | .audioDelta delta =>
      (st, [.sendToClientBytes (b64decode delta)])
  | .transcriptDelta delta =>
      ({ st with current_ai_response := st.current_ai_response ++ delta },
       [.sendToClientJson (.transcript delta)])
  | .inputTranscriptionCompleted t =>
      if t ≠ "" then
        let h := st.session_chat_history ++ [⟨.user, some t⟩]
        ({ st with session_chat_history := h },
         check_for_booking env o h ++ [.sendToClientJson (.userTranscript t)])
      else
        (st, [.sendToClientJson (.userTranscript t)])
  | .responseDone =>
      if st.current_ai_response ≠ "" then
        ({ session_chat_history :=
             st.session_chat_history ++ [⟨.assistant, some st.current_ai_response⟩],
           current_ai_response := "" },
         [.sendToClientJson .responseEnd])
      else
        (st, [.sendToClientJson .responseEnd])
  | .errorEvent msg =>
      (st, [.log "[DEBUG] OpenAI error", .sendToClientJson (.errorMsg msg)])
  | .other _ => (st, [])

/-- The `async for` loop of `receive_from_openai` over a finite prefix of
the upstream event stream.  Each event is paired with the collaborator
outcomes (`Oracles`) its handling observes. -/
def processEvents (env : Env) (st : SessionState) :
    List (UpstreamEvent × Oracles) → SessionState × List Effect
  | [] => (st, [])
  | (ev, o) :: rest =>
      let r := handleEvent env o st ev
      let r' := processEvents env r.1 rest
      (r'.1, r.2 ++ r'.2)

/-! ## `ws_voice` (lines 151–295) -/

/-- Outcome of `websockets.connect(OPENAI_REALTIME_URL, ...)`:
success, `InvalidStatusCode` with the rejection status, or any other
exception (name and message). -/
inductive ConnectResult where
  | ok
  | invalidStatus (status : Nat)
  | otherError (name msg : String)
deriving DecidableEq, Repr

/-- The whole inbound traffic of one session: the frames arriving from
the browser and the upstream events (each with its collaborator
outcomes). -/
structure SessionInput where
  clientFrames : List ClientFrame
  upstreamEvents : List (UpstreamEvent × Oracles)
deriving Repr

/-- `ws_voice`: accept, connect; on success send the session
configuration and run the two relay loops (`asyncio.gather` interleaves
them; the trace below is one serialization, client loop first — no
verified claim depends on the relative order of the two loops' effects);
on `InvalidStatusCode` or any other connect exception, send one `error`
message (best effort) and close the client socket, without ever starting
either loop. -/
def wsVoice (env : Env) (conn : ConnectResult) (inp : SessionInput) :
    List Effect :=
  Effect.acceptClient ::
  match conn with
  | .ok =>
      .sendToUpstream .sessionUpdate ::
      ((receive_from_client inp.clientFrames).map .sendToUpstream ++
       (processEvents env ⟨initialSessionHistory, ""⟩ inp.upstreamEvents).2)
  | .invalidStatus s =>
      [.log "[ERROR] OpenAI connection failed",
       .sendToClientJson (.errorMsg
         ("OpenAI connection failed with status " ++ toString s)),
       .closeClient]
  | .otherError name msg =>
      [.log "[ERROR] Connection error",
       .sendToClientJson (.errorMsg
         ("Connection error: " ++ name ++ ": " ++ msg)),
       .closeClient]

/-! ## Auxiliary notions used by the statements -/

/-- Concatenation of a list of transcript delta strings, in order. -/
def concatDeltas : List String → String
  | [] => ""
  | d :: rest => d ++ concatDeltas rest

/-- The upstream message that a single client frame gives rise to:
a non-empty binary frame becomes one base64 `input_audio_buffer.append`
event, everything else (text frames, the empty binary frame) none. -/
def forwardedFrame : ClientFrame → Option UpstreamOut
  | .binary (b :: bs) => some (.inputAudioBufferAppend (b64encode (b :: bs)))
  | _ => none

/-- Sample environment for concrete evaluations. -/
def env0 : Env := ⟨true⟩

/-- Sample collaborator outcome: the completion call succeeds with a
plain text answer (no tool call), the webhook POST returns 200. -/
def oStub : Oracles := ⟨.ok ⟨[], some "Sure!"⟩, .ok 200⟩

/-! ## Helper lemmas -/

/-- `send_to_make` performs at most one webhook POST and never touches
the client socket. -/
theorem send_to_make_counts (env : Env) (post : Except Unit Nat)
    (data : List (String × String)) :
    (send_to_make env post data).2.countP Effect.isHttpPost ≤ 1 ∧
    (send_to_make env post data).2.countP Effect.isClientJson = 0 ∧
    (send_to_make env post data).2.countP Effect.isCloseClient = 0 ∧
    (send_to_make env post data).2.countP Effect.isLlmCall = 0 ∧
    (send_to_make env post data).2.countP Effect.isClientError = 0 := by
  obtain ⟨u⟩ := env
  cases u <;> cases post <;>
    simp [send_to_make, List.countP_cons, Effect.isHttpPost, Effect.isClientJson,
      Effect.isCloseClient, Effect.isLlmCall, Effect.isClientError]

/-- Shape of a `check_for_booking` trace: it always starts with the
blocking completion call on the given history, and the remainder holds
no further completion call, no client-socket effect, and at most one
webhook POST. -/
theorem check_for_booking_shape (env : Env) (o : Oracles) (h : List Turn) :
    ∃ mid, check_for_booking env o h = Effect.llmCall h :: mid ∧
      mid.countP Effect.isLlmCall = 0 ∧
      mid.countP Effect.isClientJson = 0 ∧
      mid.countP Effect.isCloseClient = 0 ∧
      mid.countP Effect.isClientError = 0 ∧
      mid.countP Effect.isHttpPost ≤ 1 := by
  obtain ⟨llm, post⟩ := o
  cases llm with
  | error e => exact ⟨_, rfl, by decide, by decide, by decide, by decide, by decide⟩
  | ok msg =>
      obtain ⟨tcs, content⟩ := msg
      cases tcs with
      | nil => exact ⟨[], rfl, by decide, by decide, by decide, by decide, by decide⟩
      | cons tc rest =>
          obtain ⟨argr⟩ := tc
          cases argr with
          | error e =>
              exact ⟨_, rfl, by decide, by decide, by decide, by decide, by decide⟩
          | ok args =>
              obtain ⟨s1, s2, s3, s4, s5⟩ :=
                send_to_make_counts env post (args ++ [("action", "book")])
              exact ⟨_, rfl,
                by simpa [List.countP_cons, Effect.isLlmCall] using s4,
                by simpa [List.countP_cons, Effect.isClientJson] using s2,
                by simpa [List.countP_cons, Effect.isCloseClient] using s3,
                by simpa [List.countP_cons, Effect.isClientError] using s5,
                by simpa [List.countP_cons, Effect.isHttpPost] using s1⟩

/-- The session state after one event does not depend on the outcomes of
the extraction and webhook collaborator calls: those calls only
contribute effects, never state. -/
theorem handleEvent_fst_oracle (env : Env) (o o' : Oracles) (st : SessionState)
    (ev : UpstreamEvent) :
    (handleEvent env o st ev).1 = (handleEvent env o' st ev).1 := by
  cases ev <;> first
    | rfl
    | (simp only [handleEvent]; split <;> rfl)

/-- `processEvents` over a concatenation of event lists. -/
theorem processEvents_append (env : Env) (st : SessionState)
    (l1 l2 : List (UpstreamEvent × Oracles)) :
    processEvents env st (l1 ++ l2) =
      ((processEvents env (processEvents env st l1).1 l2).1,
       (processEvents env st l1).2 ++
         (processEvents env (processEvents env st l1).1 l2).2) := by
  induction l1 generalizing st with
  | nil => simp [processEvents]
  | cons p rest ih =>
      obtain ⟨ev, o⟩ := p
      simp [processEvents, ih, List.append_assoc]

/-- Processing a run of assistant-transcript deltas only grows the
accumulator by their concatenation and forwards each delta. -/
theorem processEvents_deltas (env : Env) (o : Oracles) (h : List Turn)
    (buf : String) (deltas : List String) :
    processEvents env ⟨h, buf⟩
        (deltas.map (fun d => (UpstreamEvent.transcriptDelta d, o))) =
      (⟨h, buf ++ concatDeltas deltas⟩,
       deltas.map (fun d => Effect.sendToClientJson (.transcript d))) := by
  induction deltas generalizing buf with
  | nil => simp [processEvents, concatDeltas]
  | cons d rest ih =>
      simp [processEvents, handleEvent, concatDeltas, ih, String.append_assoc]

/-! ## Claim C1 -/

/-- Claim C1, counterexample.  The claim states that booking extraction
is invoked asynchronously (fire-and-forget) and that processing of the
user-transcript-completed event does not wait for the collaborator call.
In the source, `check_for_booking(session_chat_history)` is a plain
synchronous call (line 244): here its blocking completion-call effect is
the first element of the handler trace, and the forwarding of the
`user_transcript` message (and a fortiori any later event's handling)
happens only after it has returned — the loop does wait. -/
theorem c1_synchronous_counterexample :
    (handleEvent env0 oStub ⟨[], ""⟩
        (.inputTranscriptionCompleted "hi")).2 =
      [Effect.llmCall [⟨Role.user, some "hi"⟩],
       Effect.sendToClientJson (.userTranscript "hi")] := by decide

/-- Claim C1, amended.  Extraction is attempted at most once per
upstream event (hence at most once per completed user utterance), but it
is invoked synchronously, not fire-and-forget: for a non-empty completed
user transcript the blocking extraction collaborator call is the very
first effect of handling the event, and the `user_transcript` forward is
performed only after it (it is the last effect of the handler trace). -/
theorem c1_at_most_once_but_synchronous (env : Env) (o : Oracles)
    (st : SessionState) (ev : UpstreamEvent) (t : String) (ht : t ≠ "") :
    ((handleEvent env o st ev).2.countP Effect.isLlmCall ≤ 1) ∧
    ((handleEvent env o st (.inputTranscriptionCompleted t)).2.head? =
       some (Effect.llmCall (st.session_chat_history ++ [⟨Role.user, some t⟩]))) ∧
    ((handleEvent env o st (.inputTranscriptionCompleted t)).2.getLast? =
       some (Effect.sendToClientJson (.userTranscript t))) ∧
    ((handleEvent env o st (.inputTranscriptionCompleted t)).2.countP
        Effect.isLlmCall = 1) := by
  obtain ⟨mid, hmid, m1, m2, m3, m4, m5⟩ :=
    check_for_booking_shape env o (st.session_chat_history ++ [⟨Role.user, some t⟩])
  refine ⟨?_, ?_, ?_, ?_⟩
  · cases ev with
    | inputTranscriptionCompleted t' =>
        by_cases ht' : t' = ""
        · simp [handleEvent, ht', List.countP_cons, Effect.isLlmCall]
        · obtain ⟨mid', hmid', m1', _⟩ :=
            check_for_booking_shape env o
              (st.session_chat_history ++ [⟨Role.user, some t'⟩])
          simp [handleEvent, ht', hmid', List.countP_append, List.countP_cons,
            Effect.isLlmCall, m1']
    | audioDelta d => simp [handleEvent, List.countP_cons, Effect.isLlmCall]
    | transcriptDelta d => simp [handleEvent, List.countP_cons, Effect.isLlmCall]
    | responseDone =>
        simp only [handleEvent]
        split <;> simp [List.countP_cons, Effect.isLlmCall]
    | errorEvent m => simp [handleEvent, List.countP_cons, Effect.isLlmCall]
    | other tag => simp [handleEvent, List.countP_cons, Effect.isLlmCall]
  · simp [handleEvent, ht, hmid]
  · have hshape : (handleEvent env o st (.inputTranscriptionCompleted t)).2 =
        (Effect.llmCall (st.session_chat_history ++ [⟨Role.user, some t⟩]) :: mid) ++
          [Effect.sendToClientJson (.userTranscript t)] := by
      simp [handleEvent, ht, hmid]
    rw [hshape, List.getLast?_concat]
  · simp [handleEvent, ht, hmid, List.countP_append, List.countP_cons,
      Effect.isLlmCall, m1]

/-- Witness for `c1_at_most_once_but_synchronous` at concrete inputs. -/
theorem c1_witness :
    ((handleEvent env0 oStub ⟨[], ""⟩ UpstreamEvent.responseDone).2.countP
        Effect.isLlmCall ≤ 1) ∧
    ((handleEvent env0 oStub ⟨[], ""⟩
        (.inputTranscriptionCompleted "hi")).2.head? =
       some (Effect.llmCall ([] ++ [⟨Role.user, some "hi"⟩]))) ∧
    ((handleEvent env0 oStub ⟨[], ""⟩
        (.inputTranscriptionCompleted "hi")).2.getLast? =
       some (Effect.sendToClientJson (.userTranscript "hi"))) ∧
    ((handleEvent env0 oStub ⟨[], ""⟩
        (.inputTranscriptionCompleted "hi")).2.countP Effect.isLlmCall = 1) :=
  c1_at_most_once_but_synchronous env0 oStub ⟨[], ""⟩ .responseDone "hi" (by decide)

/-! ## Claim C2 -/

/-- Claim C2, counterexample.  The claim demands that for *every*
sequence of assistant-transcript deltas between two `response.done`
boundaries the concatenation equals the content of exactly one appended
assistant turn.  For the empty sequence (concatenation `""`) the guard
`if current_ai_response:` is false and *no* assistant turn is appended:
starting from an empty log, the boundary leaves the log empty, whereas
the claim would require the one-element log `[assistant ""]`. -/
theorem c2_empty_response_counterexample :
    (processEvents env0 ⟨[], ""⟩
        [(UpstreamEvent.responseDone, oStub)]).1.session_chat_history = [] ∧
    ([] : List Turn) ≠ [⟨Role.assistant, some ""⟩] := by decide

/-- Claim C2, amended.  Between two consecutive `response.done`
boundaries (so starting with an empty accumulator), the deltas are each
forwarded as `transcript` messages, and at the boundary exactly one
assistant turn whose content is the concatenation of the deltas is
appended *when that concatenation is non-empty* (no turn is appended for
an empty concatenation); the accumulator is the empty string again
immediately after the boundary. -/
theorem c2_transcript_assembly (env : Env) (o o' : Oracles) (h : List Turn)
    (deltas : List String) :
    processEvents env ⟨h, ""⟩
        (deltas.map (fun d => (UpstreamEvent.transcriptDelta d, o)) ++
         [(UpstreamEvent.responseDone, o')]) =
      (⟨h ++ (if concatDeltas deltas ≠ "" then
                [⟨Role.assistant, some (concatDeltas deltas)⟩] else []), ""⟩,
       deltas.map (fun d => Effect.sendToClientJson (.transcript d)) ++
         [Effect.sendToClientJson .responseEnd]) := by
  rw [processEvents_append, processEvents_deltas]
  by_cases hc : concatDeltas deltas = "" <;>
    simp [processEvents, handleEvent, hc]

/-! ## Claim C3 -/

/-- Claim C3, counterexample.  The claim states that *every* binary
frame is forwarded.  `if msg.get("bytes"):` is a Python truthiness test
and the empty byte string `b""` is falsy, so an empty binary frame is
silently dropped: the claim would require the one-element output
`[input_audio_buffer.append ""]` for the input `[binary b""]`, but the
output is empty. -/
theorem c3_empty_frame_counterexample :
    receive_from_client [ClientFrame.binary []] = [] ∧
    ([] : List UpstreamOut) ≠
      [UpstreamOut.inputAudioBufferAppend (b64encode [])] := by decide

/-- Claim C3, amended.  Every *non-empty* binary frame is forwarded to
upstream as exactly one `input_audio_buffer.append` event whose audio
field is the base64 encoding of the frame's bytes, in arrival order with
no frame dropped or duplicated; text frames and the empty binary frame
are ignored without producing an error. -/
theorem c3_audio_forwarding (frames : List ClientFrame) :
    receive_from_client frames = frames.filterMap forwardedFrame := by
  induction frames with
  | nil => rfl
  | cons f rest ih =>
      cases f with
      | binary d =>
          cases d with
          | nil =>
              simpa [receive_from_client, frameBytes, forwardedFrame,
                List.filterMap_cons] using ih
          | cons b bs =>
              simp [receive_from_client, frameBytes, forwardedFrame,
                List.filterMap_cons, ih]
      | text s =>
          simpa [receive_from_client, frameBytes, forwardedFrame,
            List.filterMap_cons] using ih

/-! ## Claim C4 -/

/-- Claim C4, confirmed.  On a `conversation.item.input_audio_transcription.completed`
event: when the transcript is non-empty a user turn with that text is
appended to the session log and the booking extraction is invoked
(exactly one collaborator call, on the log including the new turn); when
it is empty the log is unchanged and no extraction is attempted; in both
cases the full transcript is forwarded to the client as the final
`user_transcript` message of the handler. -/
theorem c4_user_transcript_completed (env : Env) (o : Oracles) (h : List Turn)
    (buf t : String) :
    ((handleEvent env o ⟨h, buf⟩ (.inputTranscriptionCompleted t)).1 =
       ⟨if t ≠ "" then h ++ [⟨Role.user, some t⟩] else h, buf⟩) ∧
    ((handleEvent env o ⟨h, buf⟩ (.inputTranscriptionCompleted t)).2.countP
        Effect.isLlmCall = if t ≠ "" then 1 else 0) ∧
    ((handleEvent env o ⟨h, buf⟩ (.inputTranscriptionCompleted t)).2.getLast? =
       some (Effect.sendToClientJson (.userTranscript t))) := by
  by_cases ht : t = ""
  · simp [handleEvent, ht, Effect.isLlmCall]
  · obtain ⟨mid, hmid, m1, _⟩ :=
      check_for_booking_shape env o (h ++ [⟨Role.user, some t⟩])
    refine ⟨by simp [handleEvent, ht], ?_, ?_⟩
    · simp [handleEvent, ht, hmid, List.countP_append, List.countP_cons,
        Effect.isLlmCall, m1]
    · have hshape : (handleEvent env o ⟨h, buf⟩ (.inputTranscriptionCompleted t)).2 =
          (Effect.llmCall (h ++ [⟨Role.user, some t⟩]) :: mid) ++
            [Effect.sendToClientJson (.userTranscript t)] := by
        simp [handleEvent, ht, hmid]
      rw [hshape, List.getLast?_concat]

/-! ## Claim C5 -/

/-- Claim C5, counterexample.  The claim states success is reported for
any 200-class (2xx) status; the source tests `r.status_code == 200`
exactly, so a 201 response — a 2xx status — is reported as failure. -/
theorem c5_status_class_counterexample :
    (send_to_make ⟨true⟩ (Except.ok 201) []).1 = false ∧
    200 ≤ 201 ∧ 201 < 300 := by decide

/-- Claim C5, amended.  `send_to_make` reports success if and only if
the webhook URL is configured and the single outbound POST returns HTTP
status exactly 200 (not any 2xx status); the dispatch is a single
attempt — at most one POST, no retry. -/
theorem c5_webhook_success_exact_200 (env : Env) (post : Except Unit Nat)
    (data : List (String × String)) :
    ((send_to_make env post data).1 = true ↔
       env.makeWebhookUrlSet = true ∧ post = Except.ok 200) ∧
    (send_to_make env post data).2.countP Effect.isHttpPost ≤ 1 := by
  refine ⟨?_, (send_to_make_counts env post data).1⟩
  obtain ⟨u⟩ := env
  cases u <;> cases post <;> simp [send_to_make]

/-! ## Claim C6 -/

/-- Claim C6, confirmed.  When the extraction collaborator call raises
(`o.llm = .error ()`), the failure is swallowed inside
`check_for_booking`ʼs `try/except`: no webhook POST is dispatched, no
client-visible error message (indeed no client JSON beyond the normal
`user_transcript` forward) is produced, the client socket is not closed,
the forward still happens, the resulting session state is identical to
the one produced under any other collaborator outcome, and the fan-out
loop goes on to process the remaining events with an unchanged final
state. -/
theorem c6_extraction_failure_swallowed (env : Env) (post : Except Unit Nat)
    (o' : Oracles) (h : List Turn) (buf t : String)
    (rest : List (UpstreamEvent × Oracles)) :
    ((handleEvent env ⟨Except.error (), post⟩ ⟨h, buf⟩
        (.inputTranscriptionCompleted t)).2.countP Effect.isHttpPost = 0) ∧
    ((handleEvent env ⟨Except.error (), post⟩ ⟨h, buf⟩
        (.inputTranscriptionCompleted t)).2.countP Effect.isClientError = 0) ∧
    ((handleEvent env ⟨Except.error (), post⟩ ⟨h, buf⟩
        (.inputTranscriptionCompleted t)).2.countP Effect.isCloseClient = 0) ∧
    ((handleEvent env ⟨Except.error (), post⟩ ⟨h, buf⟩
        (.inputTranscriptionCompleted t)).2.getLast? =
       some (Effect.sendToClientJson (.userTranscript t))) ∧
    ((handleEvent env ⟨Except.error (), post⟩ ⟨h, buf⟩
        (.inputTranscriptionCompleted t)).1 =
       (handleEvent env o' ⟨h, buf⟩ (.inputTranscriptionCompleted t)).1) ∧
    ((processEvents env ⟨h, buf⟩
        ((UpstreamEvent.inputTranscriptionCompleted t,
          (⟨Except.error (), post⟩ : Oracles)) :: rest)).1 =
       (processEvents env ⟨h, buf⟩
        ((UpstreamEvent.inputTranscriptionCompleted t, o') :: rest)).1) := by
    refine ⟨?_, ?_, ?_, ?_, ?_, ?_⟩
    · by_cases ht : t = "" <;>
        simp [handleEvent, check_for_booking, ht, List.countP_cons,
          Effect.isHttpPost, List.countP_append]
    · by_cases ht : t = "" <;>
        simp [handleEvent, check_for_booking, ht, List.countP_cons,
          Effect.isClientError, List.countP_append]
    · by_cases ht : t = "" <;>
        simp [handleEvent, check_for_booking, ht, List.countP_cons,
          Effect.isCloseClient, List.countP_append]
    · by_cases ht : t = "" <;>
        simp [handleEvent, check_for_booking, ht, List.getLast?_concat]
    · exact handleEvent_fst_oracle env _ o' ⟨h, buf⟩ _
    · simp only [processEvents]
      rw [handleEvent_fst_oracle env ⟨Except.error (), post⟩ o' ⟨h, buf⟩
        (.inputTranscriptionCompleted t)]

/-! ## Claim C7 -/

/-- Claim C7, confirmed (proved for *every* webhook outcome, hence in
particular for a connection exception or a non-success status): the
dispatch performs at most one POST (no retry), produces no client JSON
message and never closes the client socket; the booking-check path
produces no client-visible error for any collaborator outcome; and the
session state after any event is independent of the webhook outcome —
the conversation simply continues. -/
theorem c7_webhook_failure_contained (env : Env)
    (llm : Except Unit ChatCompletionMessage) (p1 p2 : Except Unit Nat)
    (h : List Turn) (st : SessionState) (ev : UpstreamEvent)
    (data : List (String × String)) :
    ((send_to_make env p1 data).2.countP Effect.isHttpPost ≤ 1) ∧
    ((send_to_make env p1 data).2.countP Effect.isClientJson = 0) ∧
    ((send_to_make env p1 data).2.countP Effect.isCloseClient = 0) ∧
    ((check_for_booking env ⟨llm, p1⟩ h).countP Effect.isClientError = 0) ∧
    ((handleEvent env ⟨llm, p1⟩ st ev).1 = (handleEvent env ⟨llm, p2⟩ st ev).1) := by
  obtain ⟨s1, s2, s3, _⟩ := send_to_make_counts env p1 data
  obtain ⟨mid, hmid, _, _, _, m4, _⟩ := check_for_booking_shape env ⟨llm, p1⟩ h
  refine ⟨s1, s2, s3, ?_, handleEvent_fst_oracle env _ _ st ev⟩
  simp [hmid, List.countP_cons, Effect.isClientError, m4]

/-! ## Claim C8 -/

/-- Claim C8, confirmed.  When the upstream handshake is rejected with a
non-success status (`websockets.exceptions.InvalidStatusCode`), the
client receives exactly one JSON message — an `error` whose text carries
the rejection status — the client socket is closed as the final action,
and neither relay loop is started: no upstream send (not even the
session configuration), no extraction call, and no audio forwarded. -/
theorem c8_handshake_rejection (env : Env) (s : Nat) (inp : SessionInput) :
    ((wsVoice env (.invalidStatus s) inp).filter Effect.isClientJson =
       [Effect.sendToClientJson (.errorMsg
          ("OpenAI connection failed with status " ++ toString s))]) ∧
    ((wsVoice env (.invalidStatus s) inp).getLast? = some Effect.closeClient) ∧
    ((wsVoice env (.invalidStatus s) inp).countP Effect.isUpstreamSend = 0) ∧
    ((wsVoice env (.invalidStatus s) inp).countP Effect.isLlmCall = 0) ∧
    ((wsVoice env (.invalidStatus s) inp).countP Effect.isClientBytes = 0) :=
  ⟨rfl, rfl, rfl, rfl, rfl⟩

/-! ## Claim C9 -/

set_option maxRecDepth 40000 in
/-- Claim C9, confirmed.  The per-session chat history opens with a
system turn whose content is
`SYSTEM_INSTRUCTIONS.replace("Wrap it in triple backticks with json.", "")`;
since that sentinel phrase does not occur in `SYSTEM_INSTRUCTIONS`, the
replacement is the identity and the stored content equals
`SYSTEM_INSTRUCTIONS` exactly. -/
theorem c9_system_instructions_identity :
    initialSessionHistory = [⟨Role.system, some SYSTEM_INSTRUCTIONS⟩] ∧
    occursIn "Wrap it in triple backticks with json." SYSTEM_INSTRUCTIONS = false := by
  decide

/-! ## Claim C10 -/

/-- Claim C10, confirmed.  Every call of `process_user_message` appends
exactly one assistant turn — carrying exactly the returned reply — to
the process-wide chat history, after appending a user turn if and only
if the incoming message is non-empty; and when the language-model call
raises, the reply (and hence the appended assistant content) is the
fixed fallback apology. -/
theorem c10_process_user_message_turns (env : Env) (o : Oracles)
    (h : List Turn) (m : String) :
    ((process_user_message env o h m).2.1 =
       (if m ≠ "" then h ++ [⟨Role.user, some m⟩] else h) ++
         [⟨Role.assistant, (process_user_message env o h m).1⟩]) ∧
    ((process_user_message env ⟨Except.error (), o.post⟩ h m).1 =
       some fallbackReply) := by
  obtain ⟨llm, post⟩ := o
  refine ⟨?_, rfl⟩
  cases llm with
  | error e => rfl
  | ok msg =>
      obtain ⟨tcs, content⟩ := msg
      cases tcs with
      | nil => rfl
      | cons tc rest =>
          obtain ⟨argr⟩ := tc
          cases argr with
          | error e => rfl
          | ok args => rfl

end AIReceptionist
